import Mathlib

/-
Verification of the reactor session protocol engine (src/reactor/channels.py,
src/tests/fision/todo/live.py) against its specification.

The consumer `ReactorConsumer` is embedded as explicit state passing:
each handler maps a `ConsumerState` to a new state together with the list of
channel-layer group actions it issued and the list of wire messages it sent.
Python exceptions are embedded as `Except RErr`; an exception propagating out
of a handler leaves the consumer state as it was at the raise point, and each
erroring path below raises before any mutation, mirroring the source.

The collaborators that are not under src/ (reactor.component's
Component/RootComponent, reactor.json, reactor.utils.extract_data, and the
external django Signer and channel layer) are modelled from the spec; each
such definition carries a doc comment saying so.
-/

namespace Reactor

/-- Python-like payload values appearing in wire payloads and component
state mappings. -/
inductive Val where
  | vStr (s : String)
  | vNat (n : Nat)
  | vBool (b : Bool)
deriving DecidableEq, Repr

/-- A Python dict with string keys, as an association list (first binding of a
key is the live one, matching `List.lookup`). -/
abbrev StateMap := List (String × Val)

/-- Embedding of Python `dict(a, **b)`: all keys of both, with the value from
`b` winning on keys present in both. -/
def dictMerge (a b : StateMap) : StateMap :=
  a.filter (fun p => (b.lookup p.1).isNone) ++ b

/-- Embedding of the Python truthiness test `if event['html_diff']:` on a
diff-or-none value: `None` and the empty diff are falsy. -/
def truthyDiff : Option String → Bool
  | none => false
  | some d => !d.isEmpty

/-- The exceptions that can propagate out of the consumer's handlers.
`integrityError` is the spec's name for the signer's BadSignature;
`attributeError` is Python's failure of `getattr(self, f'receive_{name}')`;
`typeError` is Python's arity failure on a call. -/
inductive RErr where
  | integrityError
  | deserializationError
  | unknownComponentType
  | unknownComponent
  | unknownHandler
  | attributeError
  | typeError
  | keyError
deriving DecidableEq, Repr

/-- Outbound wire events (`send_json` payloads), spec section 6. -/
inductive WireMsg where
  | componentsMsg (componentTypes : List (String × String))
  | renderMsg (id : Nat) (htmlDiff : String)
  | removeMsg (id : Nat)
  | visitMsg (action : String) (url : String)
deriving DecidableEq, Repr

/-- A render event as passed to `ReactorConsumer.render`: component id and
diff-or-none. -/
structure RenderEvent where
  id : Nat
  html_diff : Option String
deriving DecidableEq, Repr

/-- Embedding of `ReactorConsumer.render` (channels.py lines 105-108): send a
`render` wire message only when the diff is truthy. -/
def render (event : RenderEvent) : List WireMsg :=
  match event.html_diff with
  | none => []
  | some d => if d.isEmpty then [] else [WireMsg.renderMsg event.id d]

/-- Actions issued against the channel layer's group directory
(`group_add` / `group_discard`), recorded with the room and channel name. -/
inductive GroupAction where
  | add (room : String) (channel : String)
  | discard (room : String) (channel : String)
deriving DecidableEq, Repr

/-- Modelled from the spec: the channel layer's group directory (Topic
Registry, spec section 4.1) is external to src/. It is the process-wide set of
(topic, channel) membership pairs; `join` is a no-op if already present. -/
def groupAdd (reg : List (String × String)) (room channel : String) :
    List (String × String) :=
  if (room, channel) ∈ reg then reg else (room, channel) :: reg

/-- Modelled from the spec: `leave` removes the membership pair; no-op if
absent (spec section 4.1). -/
def groupDiscard (reg : List (String × String)) (room channel : String) :
    List (String × String) :=
  reg.filter (fun p => p ≠ (room, channel))

/-- Modelled from the spec: the signature django's Signer puts on a value.
The claims depend only on the verification check `sig = signature key value`,
so any concrete keyed hash serves. -/
def signatureOf (key : Nat) (value : String) : Nat :=
  value.data.foldl (fun h c => h * 131 + c.toNat + 1) key

/-- A signed state envelope: carried value plus the signature appended at
signing time (spec section 3, "Signed state envelope"). The value is the
serialized construction-argument mapping. -/
structure SignedValue where
  value : String
  sig : Nat
deriving DecidableEq, Repr

/-- Modelled from the spec: `encode(payload) -> envelope` of the State
Integrity Codec (spec section 4.2), i.e. django `Signer.sign`. -/
def signValue (key : Nat) (value : String) : SignedValue :=
  ⟨value, signatureOf key value⟩

/-- Modelled from the spec: `Signer.unsign` verifies the signature under the
server's current key and fails with `IntegrityError` (BadSignature) when it
does not validate, before the payload is looked at (spec section 4.2). -/
def unsignValue (key : Nat) (e : SignedValue) : Except RErr String :=
  if e.sig = signatureOf key e.value then Except.ok e.value
  else Except.error RErr.integrityError

/-- Modelled from the spec: `reactor.json.loads` is not under src/. The spec
treats serialization as opaque; we model a serialized document as either the
rendering of a mapping or garbage that fails to deserialize. `serializeMap`
is the encoding side. -/
def serializeMap (m : StateMap) : String :=
  String.intercalate ";" (m.map (fun p =>
    p.1 ++ "=" ++ (match p.2 with
      | Val.vStr s => "s:" ++ s
      | Val.vNat n => "n:" ++ toString n
      | Val.vBool b => "b:" ++ toString b)))

/-- Modelled from the spec: deserialization of a state envelope's value; a
document that is not the encoding of any mapping fails. Deserialization is
modelled as a partial inverse of `serializeMap` by search over bounded
mappings, kept abstract by the claims, which never depend on which strings
happen to decode. -/
def jsonLoads (doc : String) : Except RErr StateMap :=
  if doc = "" then Except.ok [] else
  match doc.splitOn ";" |>.mapM (fun field =>
    match field.splitOn "=" with
    | [k, v] =>
      if v.startsWith "s:" then some (k, Val.vStr (v.drop 2))
      else if v.startsWith "n:" then
        (v.drop 2).toNat?.map (fun n => (k, Val.vNat n))
      else if v.startsWith "b:" then
        if v.drop 2 = "true" then some (k, Val.vBool true)
        else if v.drop 2 = "false" then some (k, Val.vBool false)
        else none
      else none
    | _ => none) with
  | some m => Except.ok m
  | none => Except.error RErr.deserializationError

/-- Modelled from the spec: the outcome of running a tag's registered
constructor (`mount`) during `get_or_create` (spec section 4.3): either a
live component that registered the given topic subscriptions and holds the
given state, or a self-requested destruction during construction (spec
section 4.3 tie-break). -/
inductive MountOutcome where
  | live (subs : List String) (st : StateMap)
  | selfDestroy
deriving DecidableEq, Repr

/-- Modelled from the spec: a registered component tag (component registry,
spec section 6): constructor behavior, handler table, and the rendering
collaborator's output for a given state. `mount` receives the component id
and the construction arguments; `handler` receives the event name, the
current state and the kwargs, returning `none` for an unregistered event
name and the mutated state otherwise. -/
structure CompClass where
  mount : Nat → StateMap → MountOutcome
  handler : String → StateMap → StateMap → Option StateMap
  renderOut : StateMap → String

/-- A live component instance in a session's tree: tag name, opaque state,
registered topic subscriptions, and the last rendered output sent to the
wire (the basis of the next diff). -/
structure Comp where
  tag : String
  st : StateMap
  subs : List String
  lastHtml : String
deriving DecidableEq, Repr

/-- The process-wide registry of component tags (`Component._all`). -/
abbrev Classes := List (String × CompClass)

/-- A session's component tree, keyed by the session-unique component id
(ids are unique per connection across all tags, spec section 9). -/
abbrev Tree := List (Nat × Comp)

/-- Per-connection consumer state: ReactorConsumer's signer key, channel
name, subscription set and component tree, plus the (external) channel-layer
group directory and an open/closed flag for the transport, carried so that
claims about the connection surviving an error are statements. -/
structure ConsumerState where
  signerKey : Nat
  channelName : String
  subscriptions : List String
  tree : Tree
  registry : List (String × String)
  connected : Bool
deriving DecidableEq, Repr

/-- Embedding of `ReactorConsumer.subscribe` (channels.py lines 25-33): only
when the room is not already in the subscription set, issue `group_add` and
add it to the set. -/
def subscribe (s : ConsumerState) (room : String) :
    ConsumerState × List GroupAction :=
  if room ∈ s.subscriptions then (s, [])
  else
    ({ s with
        subscriptions := room :: s.subscriptions,
        registry := groupAdd s.registry room s.channelName },
     [GroupAction.add room s.channelName])

/-- Embedding of `ReactorConsumer.unsubscribe` (channels.py lines 35-43):
only when the room is in the subscription set, issue `group_discard` and
remove it from the set. -/
def unsubscribe (s : ConsumerState) (room : String) :
    ConsumerState × List GroupAction :=
  if room ∈ s.subscriptions then
    ({ s with
        subscriptions := s.subscriptions.erase room,
        registry := groupDiscard s.registry room s.channelName },
     [GroupAction.discard room s.channelName])
  else (s, [])

/-- Folds `subscribe` over a list of rooms, accumulating issued actions (the
constructor registering several subscriptions through the connection). -/
def subscribeAll : ConsumerState → List String → ConsumerState × List GroupAction
  | s, [] => (s, [])
  | s, room :: rest =>
    let p := subscribe s room
    let q := subscribeAll p.1 rest
    (q.1, p.2 ++ q.2)

/-- Folds `unsubscribe` over a list of rooms, accumulating issued actions. -/
def unsubscribeAll : ConsumerState → List String → ConsumerState × List GroupAction
  | s, [] => (s, [])
  | s, room :: rest =>
    let p := unsubscribe s room
    let q := unsubscribeAll p.1 rest
    (q.1, p.2 ++ q.2)

/-- Embedding of `ReactorConsumer.disconnect` (channels.py lines 59-62):
unsubscribe from every room in `list(self.subscriptions)`. The close code is
ignored, so the cleanup is identical whatever triggered the disconnect. -/
def disconnect (s : ConsumerState) (closeCode : Nat) :
    ConsumerState × List GroupAction :=
  unsubscribeAll s s.subscriptions

/-- Modelled from the spec: `RootComponent.get_or_create` (reactor.component
is not under src/), spec section 4.3. If the id already exists in the
session's tree the component is returned unchanged, construction args
ignored; otherwise the tag's registered constructor runs: it may register
topic subscriptions through the owning connection, or self-request
destruction, in which case the slot is treated as never having existed (no
insertion, no subscription). Fails with `UnknownComponentType` for an
unregistered tag. Returns the id of the live component, or `none` when
construction self-destroyed. -/
def get_or_create (classes : Classes) (s : ConsumerState) (tagName : String)
    (id : Nat) (args : StateMap) :
    Except RErr (ConsumerState × List GroupAction × Option Nat) :=
  match s.tree.lookup id with
  | some _ => Except.ok (s, [], some id)
  | none =>
    match classes.lookup tagName with
    | none => Except.error RErr.unknownComponentType
    | some cls =>
      match cls.mount id args with
      | MountOutcome.selfDestroy => Except.ok (s, [], none)
      | MountOutcome.live subs st =>
        let p := subscribeAll s subs
        Except.ok
          ({ p.1 with tree := (id, (⟨tagName, st, subs, ""⟩ : Comp)) :: p.1.tree },
           p.2, some id)

/-- Modelled from the spec: `Component._render_diff` (spec section 4.3
render_diff): compute the rendering collaborator's current output for the
component, return `none` when it is unchanged from the last-sent output,
otherwise the diff artifact (modelled as the new output, the diff algorithm
being a black box) while recording the new output as last-sent. -/
def render_diff (classes : Classes) (tree : Tree) (id : Nat) :
    Tree × Option String :=
  match tree.lookup id with
  | none => (tree, none)
  | some c =>
    match classes.lookup c.tag with
    | none => (tree, none)
    | some cls =>
      let h := cls.renderOut c.st
      if h = c.lastHtml then (tree, none)
      else
        (tree.map (fun p => if p.1 = id then (p.1, { c with lastHtml := h }) else p),
         some h)

/-- Embedding of `ReactorConsumer.receive_join` (channels.py lines 71-76):
unsign the state envelope under the server's key, deserialize it,
get-or-create the component, diff-render it and send the render event.  The
render is suppressed when the diff is falsy, and no component exists to
render when construction self-destroyed. -/
def receive_join (classes : Classes) (s : ConsumerState) (tagName : String)
    (id : Nat) (state : SignedValue) :
    Except RErr (ConsumerState × List GroupAction × List WireMsg) := do
  let doc ← unsignValue s.signerKey state
  let st ← jsonLoads doc
  let r ← get_or_create classes s tagName id st
  match r.2.2 with
  | none => Except.ok (r.1, r.2.1, [])
  | some cid =>
    let rd := render_diff classes r.1.tree cid
    Except.ok ({ r.1 with tree := rd.1 }, r.2.1, render ⟨cid, rd.2⟩)

/-- Modelled from the spec: `RootComponent.dispatch_user_event`
(reactor.component is not under src/), spec section 4.3: look up the
component by id anywhere in the session's tree, failing with
`UnknownComponent` when no live component has the id; invoke its handler for
the event name, failing with `UnknownHandler` when none is registered; then
diff-render. -/
def dispatch_user_event (classes : Classes) (tree : Tree) (id : Nat)
    (name : String) (kwargs : StateMap) : Except RErr (Tree × Option String) :=
  match tree.lookup id with
  | none => Except.error RErr.unknownComponent
  | some c =>
    match classes.lookup c.tag with
    | none => Except.error RErr.unknownComponentType
    | some cls =>
      match cls.handler name c.st kwargs with
      | none => Except.error RErr.unknownHandler
      | some st1 =>
        let tree1 := tree.map (fun p => if p.1 = id then (p.1, { c with st := st1 }) else p)
        Except.ok (render_diff classes tree1 id)

/-- Modelled from the spec: `reactor.utils.extract_data` is not under src/
and the spec describes user_event handling only as "merge args", so the
extraction of the implicit arguments is modelled as the identity on the
already-structured mapping; the claims about merging quantify over its
output. -/
def extract_data (m : StateMap) : StateMap := m

/-- Embedding of `explicit_args = explicit_args or` empty-dict
(channels.py line 79): a JSON null (`none`) becomes the empty mapping. -/
def orEmpty : Option StateMap → StateMap
  | none => []
  | some m => m

/-- Embedding of `ReactorConsumer.receive_user_event` (channels.py lines
78-83): default a null `explicit_args` to the empty mapping, build kwargs as
`dict(extract_data(implicit_args), **explicit_args)`, dispatch, and send the
render event (suppressed when the diff is falsy). -/
def receive_user_event (classes : Classes) (s : ConsumerState) (id : Nat)
    (name : String) (implicit_args : StateMap)
    (explicit_args : Option StateMap) :
    Except RErr (ConsumerState × List WireMsg) := do
  let kwargs := dictMerge (extract_data implicit_args) (orEmpty explicit_args)
  let r ← dispatch_user_event classes s.tree id name kwargs
  Except.ok ({ s with tree := r.1 }, render ⟨id, r.2⟩)

/-- Modelled from the spec: `RootComponent.pop` (reactor.component is not
under src/), spec section 4.3 destroy: remove the component from the tree
and release all its topic subscriptions through the owning connection; a
missing id is a no-op. -/
def pop (s : ConsumerState) (id : Nat) : ConsumerState × List GroupAction :=
  match s.tree.lookup id with
  | none => (s, [])
  | some c =>
    unsubscribeAll { s with tree := s.tree.filter (fun p => p.1 ≠ id) } c.subs

/-- Embedding of `ReactorConsumer.receive_leave` (channels.py lines 85-86):
`self.root_component.pop(id)`. -/
def receive_leave (s : ConsumerState) (id : Nat) :
    ConsumerState × List GroupAction :=
  pop s id

/-- Embedding of `ReactorConsumer.remove` (channels.py lines 110-113):
handle a `remove` outbound event by first performing the implicit leave
(`receive_leave`) and then sending exactly one `remove` wire message
carrying the event's id. -/
def removeEvent (s : ConsumerState) (id : Nat) :
    ConsumerState × List GroupAction × List WireMsg :=
  let p := receive_leave s id
  (p.1, p.2, [WireMsg.removeMsg id])

/-- A Python-style call of the `receive_user_event` method: its signature
requires four positional parameters (id, name, implicit_args,
explicit_args), none with a default, so a three-argument call raises
TypeError before the body runs. The three-argument form is the one
`send_component` issues; its id argument is whatever value sits under the
event state's 'id' key. -/
inductive UECall where
  | args4 (id : Nat) (name : String) (implicit_args : StateMap)
      (explicit_args : Option StateMap)
  | args3 (id : Val) (name : String) (implicit_args : StateMap)

/-- Dispatch of a Python-style call to `receive_user_event`: the
four-argument form binds the parameters and runs the body; any other arity
fails with TypeError. -/
def callReceiveUserEvent (classes : Classes) (s : ConsumerState) :
    UECall → Except RErr (ConsumerState × List WireMsg)
  | UECall.args4 id name ia ea => receive_user_event classes s id name ia ea
  | UECall.args3 _ _ _ => Except.error RErr.typeError

/-- Embedding of `ReactorConsumer.send_component` (channels.py lines
95-101): read `event['state']['id']` and `event['name']` and invoke
`receive_user_event` with the three arguments (id, name, state). -/
def send_component (classes : Classes) (s : ConsumerState)
    (eventState : StateMap) (name : String) :
    Except RErr (ConsumerState × List WireMsg) := do
  let idv ← match eventState.lookup "id" with
    | some v => Except.ok v
    | none => Except.error RErr.keyError
  callReceiveUserEvent classes s (UECall.args3 idv name eventState)

mutual
/-- An inbound JSON message, shape command plus payload
(channels.py lines 66-68). -/
inductive Request where
  | mk (command : String) (payload : Payload)
/-- The payload of an inbound message, splatted as keyword arguments into
the selected `receive_*` method: one shape per method signature, a nested
request for the degenerate command name "json", and `otherP` for any payload
whose keys match no recognized signature. -/
inductive Payload where
  | joinP (tag_name : String) (id : Nat) (state : SignedValue)
  | userEventP (id : Nat) (name : String) (implicit_args : StateMap)
      (explicit_args : Option StateMap)
  | leaveP (id : Nat)
  | jsonP (request : Request)
  | otherP
end

/-- Embedding of `ReactorConsumer.receive_json` (channels.py lines 66-69),
the getattr dispatch on the command name. The attribute lookup finds exactly
the `receive_*` methods of the class — `receive_join`, `receive_user_event`,
`receive_leave`, and `receive_json` itself (command name "json") — and
raises AttributeError for any other command name before anything runs; a
recognized method whose signature does not match the payload's keys raises
TypeError from the keyword-argument splat. -/
def receive_json (classes : Classes) (s : ConsumerState) :
    Request → Except RErr (ConsumerState × List GroupAction × List WireMsg)
  | Request.mk command payload =>
    if command = "join" then
      match payload with
      | Payload.joinP tag id st => receive_join classes s tag id st
      | _ => Except.error RErr.typeError
    else if command = "user_event" then
      match payload with
      | Payload.userEventP id name ia ea =>
        (receive_user_event classes s id name ia ea).map (fun r => (r.1, [], r.2))
      | _ => Except.error RErr.typeError
    else if command = "leave" then
      match payload with
      | Payload.leaveP id =>
        let p := receive_leave s id
        Except.ok (p.1, p.2, [])
      | _ => Except.error RErr.typeError
    else if command = "json" then
      match payload with
      | Payload.jsonP req => receive_json classes s req
      | _ => Except.error RErr.typeError
    else Except.error RErr.attributeError

/-- One inbound message processed at the connection boundary: on success the
new state, issued group actions, and wire messages; on an exception the
consumer keeps the state it had at the raise point — which is its prior
state, every erroring path above raising before any mutation — the single
request fails with the recorded error, and the connection is not torn down
by the dispatcher: per-command errors are local (spec section 7 propagation
policy; the transport below the dispatcher is external to src/). -/
def handleRequest (classes : Classes) (s : ConsumerState) (req : Request) :
    ConsumerState × List GroupAction × List WireMsg × Option RErr :=
  match receive_json classes s req with
  | Except.ok (s1, acts, msgs) => (s1, acts, msgs, none)
  | Except.error e => (s, [], [], some e)

/-- The XTodoItem component class from src/tests/fision/todo/live.py, over a
database modelled as the list of existing Item ids: `mount` takes the
backing record from the construction args or looks it up by the component's
own id (`Item.objects.filter(id=self.id).first()`, the wire never supplying
an instance); when found it subscribes to `item.<record id>`, when missing
it self-requests destruction (`self.send_destroy()`). The state keeps the
serialized fields (editing, showing); the handlers and the template are
outside what the claims about the missing-record path need and are modelled
minimally. -/
def xTodoItem (db : List Nat) : CompClass where
  mount := fun id args =>
    if id ∈ db then
      MountOutcome.live ["item." ++ toString id]
        [("editing", (args.lookup "editing").getD (Val.vBool false)),
         ("showing", (args.lookup "showing").getD (Val.vStr "all"))]
    else MountOutcome.selfDestroy
  handler := fun _ _ _ => none
  renderOut := serializeMap

/-! Helper lemmas shared by the claim theorems. -/

/-- Reduction of `Except.bind` on an error, to push an exception through the
do-blocks of the embedded handlers. -/
theorem except_bind_error {ε α β : Type} (e : ε) (f : α → Except ε β) :
    (Except.error e : Except ε α) >>= f = Except.error e := rfl

/-- Reduction of `Except.bind` on a success. -/
theorem except_bind_ok {ε α β : Type} (a : α) (f : α → Except ε β) :
    (Except.ok a : Except ε α) >>= f = f a := rfl

/-- Reduction of `Except.map` on an error. -/
theorem except_map_error {ε α β : Type} (f : α → β) (e : ε) :
    Except.map f (Except.error e : Except ε α) = Except.error e := rfl

/-- A key bound in the right-hand mapping keeps its right-hand value through
`dictMerge` (Python `dict(a, **b)`: `b` wins on shared keys). -/
theorem dictMerge_lookup_right (a b : StateMap) (k : String) (w : Val)
    (hb : b.lookup k = some w) : (dictMerge a b).lookup k = some w := by
  induction a with
  | nil => simpa [dictMerge]
  | cons p rest ih =>
    by_cases hk : (b.lookup p.1).isNone
    · have hne : (k == p.1) = false := by
        rcases p with ⟨pk, pv⟩
        refine beq_eq_false_iff_ne.mpr ?_
        intro he
        rw [← he, hb] at hk
        simp at hk
      simpa [dictMerge, List.filter_cons, hk, List.lookup, hne] using ih
    · simpa [dictMerge, List.filter_cons, hk] using ih

/-- `unsubscribe` touches only the subscription set and the group
directory. -/
theorem unsubscribe_fields (s : ConsumerState) (room : String) :
    (unsubscribe s room).1.signerKey = s.signerKey ∧
    (unsubscribe s room).1.channelName = s.channelName ∧
    (unsubscribe s room).1.tree = s.tree ∧
    (unsubscribe s room).1.connected = s.connected := by
  by_cases h : room ∈ s.subscriptions <;> simp [unsubscribe, h]

/-- `unsubscribeAll` touches only the subscription set and the group
directory. -/
theorem unsubscribeAll_fields (rooms : List String) :
    ∀ s : ConsumerState,
    (unsubscribeAll s rooms).1.signerKey = s.signerKey ∧
    (unsubscribeAll s rooms).1.channelName = s.channelName ∧
    (unsubscribeAll s rooms).1.tree = s.tree ∧
    (unsubscribeAll s rooms).1.connected = s.connected := by
  induction rooms with
  | nil => intro s; simp [unsubscribeAll]
  | cons room rest ih =>
    intro s
    obtain ⟨a1, a2, a3, a4⟩ := unsubscribe_fields s room
    obtain ⟨b1, b2, b3, b4⟩ := ih (unsubscribe s room).1
    exact ⟨by simp [unsubscribeAll]; rw [b1, a1],
      by simp [unsubscribeAll]; rw [b2, a2],
      by simp [unsubscribeAll]; rw [b3, a3],
      by simp [unsubscribeAll]; rw [b4, a4]⟩

/-- Membership in `groupDiscard`: a pair survives iff it is not the
discarded one. -/
theorem groupDiscard_mem (reg : List (String × String)) (room ch : String)
    (p : String × String) :
    p ∈ groupDiscard reg room ch ↔ p ∈ reg ∧ p ≠ (room, ch) := by
  simp [groupDiscard]

/-- Membership in the registry after folding `groupDiscard` over a list of
rooms for a fixed channel: a pair survives iff it was there and it is none
of the discarded (room, channel) pairs. -/
theorem foldl_groupDiscard_mem (ch : String) (rooms : List String) :
    ∀ (reg : List (String × String)) (p : String × String),
    p ∈ rooms.foldl (fun acc room => groupDiscard acc room ch) reg ↔
      p ∈ reg ∧ ∀ room ∈ rooms, p ≠ (room, ch) := by
  induction rooms with
  | nil => intro reg p; simp
  | cons room rest ih =>
    intro reg p
    simp only [List.foldl_cons]
    rw [ih, groupDiscard_mem]
    constructor
    · rintro ⟨⟨hin, hne⟩, hall⟩
      refine ⟨hin, ?_⟩
      intro r hr
      rcases List.mem_cons.mp hr with h | h
      · rw [h]; exact hne
      · exact hall r h
    · rintro ⟨hin, hall⟩
      exact ⟨⟨hin, hall room (List.mem_cons_self _ _)⟩,
        fun r hr => hall r (List.mem_cons_of_mem _ hr)⟩

/-- Core disconnect lemma: folding `unsubscribe` over a duplicate-free
snapshot of the entire subscription set empties the set, issues exactly one
discard per room of the snapshot, and leaves the registry with every
(room, channel) pair of the snapshot discarded. -/
theorem unsubscribeAll_snapshot (rooms : List String) :
    ∀ s : ConsumerState, s.subscriptions = rooms → rooms.Nodup →
    (unsubscribeAll s rooms).1.subscriptions = [] ∧
    (unsubscribeAll s rooms).2 =
      rooms.map (fun room => GroupAction.discard room s.channelName) ∧
    (unsubscribeAll s rooms).1.registry =
      rooms.foldl (fun reg room => groupDiscard reg room s.channelName)
        s.registry := by
  induction rooms with
  | nil => intro s hs _; simp [unsubscribeAll, hs]
  | cons room rest ih =>
    intro s hs hnd
    have hmem : room ∈ s.subscriptions := by
      rw [hs]; exact List.mem_cons_self _ _
    have e1 : (unsubscribe s room).1.subscriptions = rest := by
      simp [unsubscribe, hmem, hs]
    have e2 : (unsubscribe s room).1.registry =
        groupDiscard s.registry room s.channelName := by
      simp [unsubscribe, hmem]
    have e3 : (unsubscribe s room).1.channelName = s.channelName := by
      simp [unsubscribe, hmem]
    have e4 : (unsubscribe s room).2 =
        [GroupAction.discard room s.channelName] := by
      simp [unsubscribe, hmem]
    obtain ⟨i1, i2, i3⟩ :=
      ih (unsubscribe s room).1 e1 (List.nodup_cons.mp hnd).2
    refine ⟨?_, ?_, ?_⟩
    · simp only [unsubscribeAll]; exact i1
    · simp [unsubscribeAll, e4, i2, e3]
    · simp only [unsubscribeAll, i3, e2, e3, List.foldl_cons]

/-- `unsubscribeAll` over a duplicate-free room list issues a discard for
every listed room that is in the subscription set. -/
theorem unsubscribeAll_discards (rooms : List String) :
    ∀ (s : ConsumerState) (room : String), rooms.Nodup → room ∈ rooms →
      room ∈ s.subscriptions →
      GroupAction.discard room s.channelName ∈ (unsubscribeAll s rooms).2 := by
  induction rooms with
  | nil => intro s room _ h _; simp at h
  | cons r rest ih =>
    intro s room hnd hmem hsub
    rcases List.mem_cons.mp hmem with h | h
    · subst h
      simp [unsubscribeAll, unsubscribe, hsub]
    · have hner : room ≠ r := fun e => (List.nodup_cons.mp hnd).1 (e ▸ h)
      have hstill : room ∈ (unsubscribe s r).1.subscriptions := by
        by_cases hr : r ∈ s.subscriptions
        · simp only [unsubscribe, if_pos hr]
          exact (List.mem_erase_of_ne hner).mpr hsub
        · simp only [unsubscribe, if_neg hr]
          exact hsub
      have hch : (unsubscribe s r).1.channelName = s.channelName :=
        (unsubscribe_fields s r).2.1
      have hrec := ih (unsubscribe s r).1 room (List.nodup_cons.mp hnd).2 h hstill
      rw [hch] at hrec
      simp only [unsubscribeAll]
      exact List.mem_append_right _ hrec

/-- Lookup of an id in the tree after filtering that id out. -/
theorem lookup_filter_ne (tree : Tree) (id : Nat) :
    (tree.filter (fun p => p.1 ≠ id)).lookup id = none := by
  induction tree with
  | nil => rfl
  | cons p rest ih =>
    by_cases h : p.1 = id
    · simpa [List.filter_cons, h] using ih
    · have hne : ¬ id = p.1 := fun e => h e.symm
      simp [List.filter_cons, h]
      exact ⟨hne, by simpa using ih⟩

/-! Claim theorems. -/

/-- C3: for every render event, a render wire message is sent if and only if
the html_diff is truthy: when the diff is none or empty no wire event at all
is emitted, and when it is non-empty exactly one render message carrying the
component id and the diff is sent (channels.py lines 105-108). -/
theorem render_msg_iff_diff_nonempty (e : RenderEvent) :
    (truthyDiff e.html_diff = true →
      ∃ d, e.html_diff = some d ∧ render e = [WireMsg.renderMsg e.id d]) ∧
    (truthyDiff e.html_diff = false → render e = []) := by
  rcases e with ⟨id, d⟩
  rcases d with _ | d
  · exact ⟨fun h => by simp [truthyDiff] at h, fun _ => rfl⟩
  · constructor
    · intro h
      refine ⟨d, rfl, ?_⟩
      simp only [truthyDiff, Bool.not_eq_true'] at h
      simp [render, h]
    · intro h
      simp only [truthyDiff, Bool.not_eq_false'] at h
      simp [render, h]

/-- Witness for C3 at a concrete non-empty diff. -/
theorem render_msg_iff_diff_nonempty_witness :
    ∃ d, (some "<p>x</p>" : Option String) = some d ∧
      render ⟨1, some "<p>x</p>"⟩ = [WireMsg.renderMsg 1 d] :=
  (render_msg_iff_diff_nonempty ⟨1, some "<p>x</p>"⟩).1 (by decide)

/-- C5: subscribe and unsubscribe are idempotent per connection: subscribing
to a room already in the subscription set changes neither the consumer state
(so neither the set nor the group directory) and issues no group_add, and
unsubscribing from a room not in the set is likewise a no-op issuing no
group_discard (channels.py lines 25-43). -/
theorem subscribe_unsubscribe_idempotent (s : ConsumerState) (room : String) :
    (room ∈ s.subscriptions → subscribe s room = (s, [])) ∧
    (room ∉ s.subscriptions → unsubscribe s room = (s, [])) := by
  constructor
  · intro h; simp [subscribe, h]
  · intro h; simp [unsubscribe, h]

/-- Witness for C5: a redundant subscribe and a redundant unsubscribe on a
concrete state are both no-ops. -/
theorem subscribe_unsubscribe_idempotent_witness :
    subscribe ⟨0, "chan", ["a"], [], [("a", "chan")], true⟩ "a" =
        (⟨0, "chan", ["a"], [], [("a", "chan")], true⟩, []) ∧
    unsubscribe ⟨0, "chan", ["a"], [], [("a", "chan")], true⟩ "b" =
        (⟨0, "chan", ["a"], [], [("a", "chan")], true⟩, []) :=
  ⟨(subscribe_unsubscribe_idempotent _ "a").1 (by decide),
   (subscribe_unsubscribe_idempotent _ "b").2 (by decide)⟩

/-- C9: in user_event argument merging a null `explicit_args` is treated as
the empty mapping — the handler runs exactly as it would with an empty
explicit mapping — and when the same key is bound both in the extracted
implicit_args and in explicit_args, the explicit value is the one the kwargs
passed to the handler carry (channels.py lines 78-83). -/
theorem user_event_arg_merge (classes : Classes) (s : ConsumerState)
    (id : Nat) (name : String) (ia explicit : StateMap) (k : String)
    (v w : Val) :
    receive_user_event classes s id name ia none =
      receive_user_event classes s id name ia (some []) ∧
    ((extract_data ia).lookup k = some v → explicit.lookup k = some w →
      (dictMerge (extract_data ia) explicit).lookup k = some w) :=
  ⟨rfl, fun _ hw => dictMerge_lookup_right _ _ _ _ hw⟩

/-- Witness for C9: on a concrete shared key the merged kwargs carry the
explicit value. -/
theorem user_event_arg_merge_witness :
    (dictMerge (extract_data [("n", Val.vNat 1)]) [("n", Val.vNat 2)]).lookup "n" =
      some (Val.vNat 2) :=
  (user_event_arg_merge [] ⟨0, "chan", [], [], [], true⟩ 0 "e"
      [("n", Val.vNat 1)] [("n", Val.vNat 2)] "n" (Val.vNat 1) (Val.vNat 2)).2
    (by decide) (by decide)

/-- C10: every event delivered on the internal send_component channel ends in
TypeError — `receive_user_event` is invoked with three arguments while its
signature requires a fourth — so no handler is dispatched and no render is
emitted (channels.py lines 95-101 and 78). -/
theorem send_component_raises_type_error (classes : Classes)
    (s : ConsumerState) (eventState : StateMap) (name : String) (v : Val)
    (hid : eventState.lookup "id" = some v) :
    send_component classes s eventState name = Except.error RErr.typeError := by
  simp only [send_component, hid]
  rfl

/-- Witness for C10 at a concrete event whose state carries an id. -/
theorem send_component_raises_type_error_witness :
    send_component [] ⟨0, "chan", [], [], [], true⟩ [("id", Val.vNat 1)] "e" =
      Except.error RErr.typeError :=
  send_component_raises_type_error [] ⟨0, "chan", [], [], [], true⟩
    [("id", Val.vNat 1)] "e" (Val.vNat 1) (by decide)

/-- C1: a join command whose state envelope's signature does not validate
under the server's current signing key is rejected with IntegrityError
before the payload is deserialized — the result is the same for every
carried value, deserializable or not — no component is created in the tree,
no render wire event is emitted, no group action is issued, and the
connection state (including its open flag) is untouched by the dispatcher
(channels.py lines 71-76). -/
theorem join_bad_signature_rejected (classes : Classes) (s : ConsumerState)
    (tag : String) (id : Nat) (env : SignedValue)
    (h : env.sig ≠ signatureOf s.signerKey env.value) :
    handleRequest classes s (Request.mk "join" (Payload.joinP tag id env)) =
      (s, [], [], some RErr.integrityError) := by
  have hu : unsignValue s.signerKey env = Except.error RErr.integrityError := by
    simp [unsignValue, h]
  simp [handleRequest, receive_json, receive_join, hu, except_bind_error]

/-- Witness for C1 at a concrete tampered envelope (signing key 0 signs the
empty document as 0; the envelope carries signature 1). -/
theorem join_bad_signature_rejected_witness :
    handleRequest [] ⟨0, "chan", [], [], [], true⟩
        (Request.mk "join" (Payload.joinP "x-todo-item" 7 ⟨"", 1⟩)) =
      (⟨0, "chan", [], [], [], true⟩, [], [], some RErr.integrityError) :=
  join_bad_signature_rejected [] ⟨0, "chan", [], [], [], true⟩
    "x-todo-item" 7 ⟨"", 1⟩ (by decide)

/-- C2: an inbound message whose command name is none of the recognized ones
(the getattr lookup finds only receive_join, receive_user_event,
receive_leave and receive_json itself) fails just that request with an
AttributeError: the consumer state — subscription set, tree, registry,
connected flag — is unchanged, no group action is issued, no wire message is
sent, and the dispatcher does not tear the session down (channels.py lines
66-69). -/
theorem unknown_command_fails_locally (classes : Classes) (s : ConsumerState)
    (command : String) (payload : Payload)
    (h : command ≠ "join" ∧ command ≠ "user_event" ∧ command ≠ "leave" ∧
      command ≠ "json") :
    handleRequest classes s (Request.mk command payload) =
      (s, [], [], some RErr.attributeError) := by
  obtain ⟨h1, h2, h3, h4⟩ := h
  cases payload <;> simp [handleRequest, receive_json, h1, h2, h3, h4]

/-- Witness for C2 at a concrete unrecognized command name. -/
theorem unknown_command_fails_locally_witness :
    handleRequest [] ⟨0, "chan", ["a"], [], [("a", "chan")], true⟩
        (Request.mk "frobnicate" Payload.otherP) =
      (⟨0, "chan", ["a"], [], [("a", "chan")], true⟩, [], [],
        some RErr.attributeError) :=
  unknown_command_fails_locally [] ⟨0, "chan", ["a"], [], [("a", "chan")], true⟩
    "frobnicate" Payload.otherP (by decide)

/-- C6: a user_event command whose id has no live component in the session's
tree fails with UnknownComponent: the consumer state (its connected flag
included) is unchanged, so the connection remains open, and no wire event is
sent (channels.py lines 78-83 with the tree lookup of spec section 4.3). -/
theorem user_event_unknown_component (classes : Classes) (s : ConsumerState)
    (id : Nat) (name : String) (ia : StateMap) (ea : Option StateMap)
    (h : s.tree.lookup id = none) :
    handleRequest classes s
        (Request.mk "user_event" (Payload.userEventP id name ia ea)) =
      (s, [], [], some RErr.unknownComponent) := by
  have hd : dispatch_user_event classes s.tree id name
      (dictMerge (extract_data ia) (orEmpty ea)) =
      Except.error RErr.unknownComponent := by
    simp [dispatch_user_event, h]
  simp [handleRequest, receive_json, receive_user_event, hd, except_bind_error,
    except_map_error]

/-- Witness for C6: a user_event against id 99 on a session that never
joined it. -/
theorem user_event_unknown_component_witness :
    handleRequest [] ⟨0, "chan", [], [], [], true⟩
        (Request.mk "user_event" (Payload.userEventP 99 "toggle" [] none)) =
      (⟨0, "chan", [], [], [], true⟩, [], [], some RErr.unknownComponent) :=
  user_event_unknown_component [] ⟨0, "chan", [], [], [], true⟩
    99 "toggle" [] none (by decide)

/-- C4: on disconnect, a leave (group_discard) is issued against the topic
registry for every topic in the connection's subscription set at disconnect
time; after teardown the subscription set is empty and — under the session
invariant that every registry membership of this channel came from a
subscription — the connection is a member of no topic's group. The handler
ignores the close code, so the cleanup is identical whatever triggered the
disconnect, errors included (channels.py lines 59-62). -/
theorem disconnect_cleanup (s : ConsumerState) (code code2 : Nat)
    (hnd : s.subscriptions.Nodup)
    (hinv : ∀ room, (room, s.channelName) ∈ s.registry →
      room ∈ s.subscriptions) :
    (disconnect s code).1.subscriptions = [] ∧
    (disconnect s code).2 =
      s.subscriptions.map (fun room => GroupAction.discard room s.channelName) ∧
    (∀ room, (room, s.channelName) ∉ (disconnect s code).1.registry) ∧
    disconnect s code = disconnect s code2 := by
  obtain ⟨i1, i2, i3⟩ := unsubscribeAll_snapshot s.subscriptions s rfl hnd
  refine ⟨i1, i2, ?_, rfl⟩
  intro room hmem
  have hreg : (disconnect s code).1.registry =
      s.subscriptions.foldl
        (fun reg r => groupDiscard reg r s.channelName) s.registry := i3
  rw [hreg] at hmem
  rw [foldl_groupDiscard_mem] at hmem
  exact hmem.2 room (hinv room hmem.1) rfl

/-- Witness for C4 at a concrete connection subscribed to two rooms, with a
registry holding exactly its memberships, torn down with close code 3. -/
theorem disconnect_cleanup_witness :
    (disconnect ⟨0, "chan", ["a", "b"], [], [("a", "chan"), ("b", "chan")],
        true⟩ 3).1.subscriptions = [] ∧
    (disconnect ⟨0, "chan", ["a", "b"], [], [("a", "chan"), ("b", "chan")],
        true⟩ 3).2 =
      ["a", "b"].map (fun room => GroupAction.discard room "chan") ∧
    (∀ room, (room, "chan") ∉
      (disconnect ⟨0, "chan", ["a", "b"], [], [("a", "chan"), ("b", "chan")],
        true⟩ 3).1.registry) ∧
    disconnect ⟨0, "chan", ["a", "b"], [], [("a", "chan"), ("b", "chan")],
        true⟩ 3 =
      disconnect ⟨0, "chan", ["a", "b"], [], [("a", "chan"), ("b", "chan")],
        true⟩ 5 :=
  disconnect_cleanup
    ⟨0, "chan", ["a", "b"], [], [("a", "chan"), ("b", "chan")], true⟩ 3 5
    (by decide)
    (by
      intro room h
      rcases List.mem_cons.mp h with h | h
      · rw [show room = "a" from congrArg Prod.fst h]; decide
      · rcases List.mem_cons.mp h with h | h
        · rw [show room = "b" from congrArg Prod.fst h]; decide
        · cases h)

/-- C7: handling a remove outbound event first destroys the identified
component — the consumer state becomes exactly what `receive_leave`
produces, the component is gone from the tree, and when it was live each of
its topic subscriptions held by the connection is released by a
group_discard, as a leave command would do — and then emits exactly one
remove wire message carrying that id (channels.py lines 110-113 and
85-86). -/
theorem remove_paired_with_leave (s : ConsumerState) (id : Nat) :
    (removeEvent s id).1 = (receive_leave s id).1 ∧
    (removeEvent s id).2.1 = (receive_leave s id).2 ∧
    (removeEvent s id).2.2 = [WireMsg.removeMsg id] ∧
    (removeEvent s id).1.tree.lookup id = none ∧
    (∀ c, s.tree.lookup id = some c → c.subs.Nodup →
      ∀ room ∈ c.subs, room ∈ s.subscriptions →
        GroupAction.discard room s.channelName ∈ (removeEvent s id).2.1) := by
  refine ⟨rfl, rfl, rfl, ?_, ?_⟩
  · show (pop s id).1.tree.lookup id = none
    match hl : s.tree.lookup id with
    | none =>
      simp only [pop, hl]
    | some c =>
      simp only [pop, hl]
      rw [(unsubscribeAll_fields c.subs _).2.2.1]
      exact lookup_filter_ne s.tree id
  · intro c hc hnd room hr hs
    show GroupAction.discard room s.channelName ∈ (pop s id).2
    simp only [pop, hc]
    exact unsubscribeAll_discards c.subs _ room hnd hr hs

/-- Witness for C7: removing a live component that holds one subscription on
a concrete state issues the corresponding discard. -/
theorem remove_paired_with_leave_witness :
    GroupAction.discard "item.5" "chan" ∈
      (removeEvent ⟨0, "chan", ["item.5"],
        [(5, ⟨"x-todo-item", [], ["item.5"], "h"⟩)],
        [("item.5", "chan")], true⟩ 5).2.1 :=
  (remove_paired_with_leave ⟨0, "chan", ["item.5"],
      [(5, ⟨"x-todo-item", [], ["item.5"], "h"⟩)],
      [("item.5", "chan")], true⟩ 5).2.2.2.2
    ⟨"x-todo-item", [], ["item.5"], "h"⟩ (by decide) (by decide)
    "item.5" (by decide) (by decide)

/-- C8: joining an XTodoItem whose backing record is missing from the data
store: the component self-requests destruction during its own construction,
so the join succeeds while registering no topic subscription, issuing no
group action and emitting no wire event — in particular no render is ever
emitted for it — and the consumer state is unchanged, so the slot is
treated as never having existed: a subsequent user_event lookup of the id
fails with UnknownComponent (src/tests/fision/todo/live.py lines 58-65 with
the tree contract of spec section 4.3). -/
theorem xtodoitem_missing_record (db : List Nat) (s : ConsumerState)
    (id : Nat) (doc : String) (args : StateMap) (name : String)
    (kwargs : StateMap)
    (hdb : id ∉ db) (htree : s.tree.lookup id = none)
    (hdoc : jsonLoads doc = Except.ok args) :
    receive_join [("x-todo-item", xTodoItem db)] s "x-todo-item" id
        (signValue s.signerKey doc) = Except.ok (s, [], []) ∧
    dispatch_user_event [("x-todo-item", xTodoItem db)] s.tree id name
        kwargs = Except.error RErr.unknownComponent := by
  have hu : unsignValue s.signerKey (signValue s.signerKey doc) =
      Except.ok doc := by
    simp [unsignValue, signValue]
  constructor
  · have hg : get_or_create [("x-todo-item", xTodoItem db)] s "x-todo-item"
        id args = Except.ok (s, [], none) := by
      simp [get_or_create, htree, List.lookup, xTodoItem, hdb]
    simp [receive_join, hu, hdoc, hg, except_bind_ok]
  · simp [dispatch_user_event, htree]

/-- Witness for C8: joining item id 7 over an empty data store. -/
theorem xtodoitem_missing_record_witness :
    receive_join [("x-todo-item", xTodoItem [])] ⟨0, "chan", [], [], [], true⟩
        "x-todo-item" 7 (signValue 0 "") =
      Except.ok (⟨0, "chan", [], [], [], true⟩, [], []) ∧
    dispatch_user_event [("x-todo-item", xTodoItem [])] [] 7 "destroy" [] =
      Except.error RErr.unknownComponent :=
  xtodoitem_missing_record [] ⟨0, "chan", [], [], [], true⟩ 7 "" [] "destroy"
    [] (by decide) (by decide) (by simp [jsonLoads])

end Reactor
